import Mathlib

/-!
Shallow embedding of the model-availability resolution and prediction-dispatch
logic of `streamlit_ml_app/app.py` (ennovak/LLMs-Course).

The underlying fitted scikit-learn objects (pipeline, vectorizer, classifiers)
are opaque handles whose `predict`, `predict_proba` and `transform` calls are
modelled as oracle functions that either return a value or raise an exception
(`Except Err`).  Class probabilities are rationals; class indices are integers
(a scikit-learn `predict` result used for Python list indexing).  `st.error`
side effects are modelled as an explicit list of displayed message strings.
-/

set_option autoImplicit false

namespace MLApp

abbrev Text := String

abbrev Err := String

/-- A TF-IDF feature vector, the output of `vectorizer.transform([text])`. -/
abbrev Vec := List ℚ

/-- The two class labels of `class_names = [Human, AI]` (app.py line 149). -/
inductive Label where
  | Human
  | AI
deriving DecidableEq, Repr

/-- Opaque handle for the fitted pipeline artifact: `predict([text])[0]` and
`predict_proba([text])[0]` on raw text; either call may raise. -/
structure PipelineModel where
  predictOne : Text → Except Err Int
  probaOne : Text → Except Err (List ℚ)

/-- Opaque handle for the fitted TF-IDF vectorizer: `transform([text])`. -/
structure VectorizerModel where
  transform : Text → Except Err Vec

/-- Opaque handle for a fitted classifier (SVM, decision tree or AdaBoost):
`predict(X)[0]` and `predict_proba(X)[0]` on a feature vector. -/
structure ClassifierModel where
  predictOne : Vec → Except Err Int
  probaOne : Vec → Except Err (List ℚ)

/-- Handle standing for a dict entry that was never stored: any call on it
raises (a `KeyError` in Python).  All uses are guarded by availability flags. -/
def missingPipeline : PipelineModel :=
  { predictOne := fun _ => .error "KeyError", probaOne := fun _ => .error "KeyError" }

def missingVectorizer : VectorizerModel :=
  { transform := fun _ => .error "KeyError" }

def missingClassifier : ClassifierModel :=
  { predictOne := fun _ => .error "KeyError", probaOne := fun _ => .error "KeyError" }

/-- The `models` dict built by `load_models` (app.py lines 52-99): five
availability booleans plus the five loaded handles. -/
structure Models where
  pipeline_available : Bool
  vectorizer_available : Bool
  svm_available : Bool
  dt_available : Bool
  ada_available : Bool
  pipeline : PipelineModel
  vectorizer : VectorizerModel
  svm : ClassifierModel
  decision_tree : ClassifierModel
  adaboost : ClassifierModel

/-- Outcome of one `joblib.load` call: success, `FileNotFoundError`, or any
other exception. -/
inductive LoadOutcome (α : Type) where
  | ok (a : α)
  | fileNotFound
  | otherError (e : Err)

/-- One `try: x = joblib.load(...); avail = True except FileNotFoundError:
avail = False` block: a missing file yields `none` (absent, continue); any
other exception propagates to the outer handler. -/
def loadStep {α : Type} : LoadOutcome α → Except Err (Option α)
  | .ok a => .ok (some a)
  | .fileNotFound => .ok none
  | .otherError e => .error e

/-- The function `load_models` (app.py lines 52-103): load the five artifacts in order,
tolerating per-file absence; then the readiness check of lines 92-97; any
unexpected exception is caught at line 101 and yields `None`. -/
def load_models (lp : LoadOutcome PipelineModel) (lv : LoadOutcome VectorizerModel)
    (ls ld la : LoadOutcome ClassifierModel) : Option Models :=
  let body : Except Err (Option PipelineModel × Option VectorizerModel ×
      Option ClassifierModel × Option ClassifierModel × Option ClassifierModel) := do
    let p ← loadStep lp
    let v ← loadStep lv
    let s ← loadStep ls
    let d ← loadStep ld
    let a ← loadStep la
    pure (p, v, s, d, a)
  match body with
  | .error _ => none
  | .ok (p, v, s, d, a) =>
    let pipeline_ready := p.isSome
    let individual_ready := v.isSome && (s.isSome || d.isSome || a.isSome)
    if pipeline_ready || individual_ready then
      some { pipeline_available := p.isSome
             vectorizer_available := v.isSome
             svm_available := s.isSome
             dt_available := d.isSome
             ada_available := a.isSome
             pipeline := p.getD missingPipeline
             vectorizer := v.getD missingVectorizer
             svm := s.getD missingClassifier
             decision_tree := d.getD missingClassifier
             adaboost := a.getD missingClassifier }
    else none

/-- Encode a present/absent flag as a load outcome (no unexpected error). -/
def outcomeOf {α : Type} (present : Bool) (h : α) : LoadOutcome α :=
  if present then .ok h else .fileNotFound

/-- The readiness disjunction of app.py lines 92-93:
`pipeline_ready or (vectorizer and (svm or dt or ada))`. -/
def is_ready (p v s d a : Bool) : Bool :=
  p || (v && (s || d || a))

/-- Whether a load outcome is an unexpected (non-missing-file) error. -/
def isOtherError {α : Type} : LoadOutcome α → Bool
  | .otherError _ => true
  | _ => false

/-- Python list indexing `class_names[prediction]` with
`class_names = [Human, AI]` (app.py lines 149-150): indices 0, 1 and the
negative indices -1, -2 are valid; anything else raises `IndexError`. -/
def class_names_at (i : Int) : Except Err Label :=
  if i = 0 then .ok .Human
  else if i = 1 then .ok .AI
  else if i = -1 then .ok .AI
  else if i = -2 then .ok .Human
  else .error "IndexError"

/-- The complete-pipeline path (app.py lines 120-121 and 126-127):
`pipeline.predict([text])[0]` then `pipeline.predict_proba([text])[0]`. -/
def pipelinePath (m : Models) (text : Text) :
    Except Err (Option Int × Option (List ℚ)) := do
  let p ← m.pipeline.predictOne text
  let pr ← m.pipeline.probaOne text
  pure (some p, some pr)

/-- The individual-components path (app.py lines 130-132, 137-139, 143-145):
`X = vectorizer.transform([text])`, then `clf.predict(X)[0]` and
`clf.predict_proba(X)[0]`. -/
def vecClfPath (m : Models) (clf : ClassifierModel) (text : Text) :
    Except Err (Option Int × Option (List ℚ)) := do
  let X ← m.vectorizer.transform text
  let p ← clf.predictOne X
  let pr ← clf.probaOne X
  pure (some p, some pr)

/-- The if/elif dispatch of app.py lines 118-145, producing the local
`prediction` and `probabilities` values (each possibly still `None`). -/
def dispatchBody (text : Text) (model_choice : String) (m : Models) :
    Except Err (Option Int × Option (List ℚ)) :=
  if model_choice == "pipeline" && m.pipeline_available then
    pipelinePath m text
  else if model_choice == "svm" then
    if m.pipeline_available then
      pipelinePath m text
    else if m.vectorizer_available && m.svm_available then
      vecClfPath m m.svm text
    else
      pure (none, none)
  else if model_choice == "decision_tree" then
    if m.vectorizer_available && m.dt_available then
      vecClfPath m m.decision_tree text
    else
      pure (none, none)
  else if model_choice == "adaboost" then
    if m.vectorizer_available && m.ada_available then
      vecClfPath m m.adaboost text
    else
      pure (none, none)
  else
    pure (none, none)

/-- App.py lines 147-153: when both `prediction` and `probabilities` were set,
convert the class index to a label (which may raise `IndexError`); otherwise
return `(None, None)`. -/
def finishStep : Option Int × Option (List ℚ) →
    Except Err (Option Label × Option (List ℚ))
  | (some p, some pr) => (class_names_at p).map (fun lab => (some lab, some pr))
  | _ => pure (none, none)

/-- The `*_available` dict keys whose value is `True`, in insertion order:
the list interpolated into the third `st.error` message (app.py line 158). -/
def availableFlagKeys (m : Models) : List String :=
  (if m.pipeline_available then ["pipeline_available"] else []) ++
  (if m.vectorizer_available then ["vectorizer_available"] else []) ++
  (if m.svm_available then ["svm_available"] else []) ++
  (if m.dt_available then ["dt_available"] else []) ++
  (if m.ada_available then ["ada_available"] else [])

/-- The three `st.error` messages displayed by the exception handler of
app.py lines 155-158, wrapping the original cause `e`. -/
def errorMsgs (e : Err) (model_choice : String) (m : Models) : List String :=
  ["Error making prediction: " ++ e,
   "Model choice: " ++ model_choice,
   "Available models: " ++ String.intercalate ", " (availableFlagKeys m)]

/-- The function `make_prediction` (app.py lines 109-159), instrumented with the list of
`st.error` messages it displays.  Returns `((None, None), [])` when no
registry is loaded; otherwise runs the dispatch inside the `try` block,
catching any exception into the displayed messages. -/
def make_prediction_with_msgs (text : Text) (model_choice : String)
    (models : Option Models) : (Option Label × Option (List ℚ)) × List String :=
  match models with
  | none => ((none, none), [])
  | some m =>
    match dispatchBody text model_choice m >>= finishStep with
    | .ok r => (r, [])
    | .error e => ((none, none), errorMsgs e model_choice m)

/-- The value returned by `make_prediction` to its caller. -/
def make_prediction (text : Text) (model_choice : String)
    (models : Option Models) : Option Label × Option (List ℚ) :=
  (make_prediction_with_msgs text model_choice models).1

/-- Whether the resolution table yields a usable path for `model_choice`
(the conditions guarding the branches of app.py lines 118-145). -/
def usable (model_choice : String) (m : Models) : Bool :=
  if model_choice == "pipeline" then m.pipeline_available
  else if model_choice == "svm" then
    m.pipeline_available || (m.vectorizer_available && m.svm_available)
  else if model_choice == "decision_tree" then
    m.vectorizer_available && m.dt_available
  else if model_choice == "adaboost" then
    m.vectorizer_available && m.ada_available
  else false

/-- The function `get_available_models` (app.py lines 161-179): the selectable
`(model_key, display_name)` pairs, in the fixed order SVM, DecisionTree,
AdaBoost. -/
def get_available_models (models : Option Models) : List (String × String) :=
  match models with
  | none => []
  | some m =>
    (if m.pipeline_available then [("svm", "📈 SVM (Pipeline)")]
     else if m.vectorizer_available && m.svm_available then [("svm", "📈 SVM (Individual)")]
     else []) ++
    (if m.vectorizer_available && m.dt_available then [("decision_tree", "🎯 Decision Tree")]
     else []) ++
    (if m.vectorizer_available && m.ada_available then [("adaboost", "🎯 AdaBoost")]
     else [])

/-- One result row appended by the batch loop (app.py lines 445-452).
The percentage strings are kept as their underlying rational values. -/
structure Row where
  Text : String
  Full_Text : String
  Prediction : Label
  Confidence : ℚ
  Human_Prob : ℚ
  AI_Prob : ℚ
deriving DecidableEq, Repr

/-- The preview column `text[:100] + "..." if len(text) > 100 else text`. -/
def truncatePreview (text : String) : String :=
  if text.length > 100 then text.take 100 ++ "..." else text

/-- Python `max(probabilities)`: raises `ValueError` on an empty sequence. -/
def pyMax : List ℚ → Except Err ℚ
  | [] => .error "ValueError"
  | x :: xs => .ok (xs.foldl max x)

/-- Python `probabilities[i]` for a non-negative index: raises `IndexError`
when out of range. -/
def pyGet (l : List ℚ) (i : Nat) : Except Err ℚ :=
  match l.get? i with
  | some x => .ok x
  | none => .error "IndexError"

/-- Truthiness of `text.strip()`: the stripped string is non-empty exactly
when `text` contains some non-whitespace character. -/
def stripTruthy (text : String) : Bool :=
  text.data.any (fun c => !c.isWhitespace)

/-- One iteration of the batch loop (app.py lines 440-452): skip
whitespace-only texts, call `make_prediction`, and on success build the result
row (whose construction indexes the probability vector and may raise). -/
def processOne (model_choice : String) (models : Option Models) (text : Text) :
    Except Err (Option Row) :=
  if stripTruthy text then
    match make_prediction text model_choice models with
    | (some pred, some probs) => do
      let conf ← pyMax probs
      let h ← pyGet probs 0
      let a ← pyGet probs 1
      pure (some { Text := truncatePreview text, Full_Text := text,
                   Prediction := pred, Confidence := conf,
                   Human_Prob := h, AI_Prob := a })
    | _ => pure none
  else
    pure none

/-- The batch loop of app.py lines 437-454, accumulating `results` in input
order; an exception raised while building a row propagates to the handler of
line 497 and aborts the whole file processing. -/
def batch_rows (model_choice : String) (models : Option Models) :
    List Text → Except Err (List Row)
  | [] => .ok []
  | t :: ts => do
    let r ← processOne model_choice models t
    let rest ← batch_rows model_choice models ts
    match r with
    | some row => pure (row :: rest)
    | none => pure rest

/-- Outcome of the batch page after file parsing (app.py lines 431-454):
either the `"No text found in file"` error, or the processed rows. -/
inductive BatchOutcome where
  | noTextFound
  | processed (r : Except Err (List Row))

/-- App.py lines 431-434: `if not texts: st.error("No text found in file")`
else process the texts; no prediction call happens in the empty case. -/
def batch_page (texts : List Text) (model_choice : String)
    (models : Option Models) : BatchOutcome :=
  if texts.isEmpty then .noTextFound
  else .processed (batch_rows model_choice models texts)

/-- The model-comparison loop of app.py lines 547-575: one tagged result per
available model whose prediction succeeded, plus the agreement flag
`len(set(predictions)) == 1` (reported only when some result exists). -/
def compare_models (text : Text) (models : Option Models) :
    List (String × Label × List ℚ) × Option Bool :=
  let results := (get_available_models models).filterMap (fun mk =>
    match make_prediction text mk.1 models with
    | (some pred, some probs) => some (mk.2, pred, probs)
    | _ => none)
  let agreement :=
    if results.isEmpty then none
    else some (decide ((results.map (fun r => r.2.1)).toFinset.card = 1))
  (results, agreement)

/-! ### Concrete artifacts used to instantiate the theorems -/

/-- A deterministic pipeline oracle: class 1 (AI) with probabilities 1/5, 4/5. -/
def detPipeline : PipelineModel :=
  { predictOne := fun _ => .ok 1, probaOne := fun _ => .ok [(1 : ℚ)/5, 4/5] }

/-- A deterministic vectorizer oracle. -/
def detVectorizer : VectorizerModel :=
  { transform := fun _ => .ok [(1 : ℚ)] }

/-- A deterministic classifier oracle: class 1 (AI) with probabilities 2/5, 3/5. -/
def detClassifier : ClassifierModel :=
  { predictOne := fun _ => .ok 1, probaOne := fun _ => .ok [(2 : ℚ)/5, 3/5] }

/-- A pipeline whose underlying `predict` call raises. -/
def raisingPipeline : PipelineModel :=
  { predictOne := fun _ => .error "boom", probaOne := fun _ => .error "boom" }

/-- Registry with all five artifacts loaded. -/
def mAll : Models :=
  { pipeline_available := true, vectorizer_available := true,
    svm_available := true, dt_available := true, ada_available := true,
    pipeline := detPipeline, vectorizer := detVectorizer, svm := detClassifier,
    decision_tree := detClassifier, adaboost := detClassifier }

/-- Registry with only the vectorizer and the decision tree loaded. -/
def mVecDt : Models :=
  { pipeline_available := false, vectorizer_available := true,
    svm_available := false, dt_available := true, ada_available := false,
    pipeline := missingPipeline, vectorizer := detVectorizer,
    svm := missingClassifier, decision_tree := detClassifier,
    adaboost := missingClassifier }

/-- Registry with every artifact loaded except the pipeline. -/
def mNoPipe : Models :=
  { pipeline_available := false, vectorizer_available := true,
    svm_available := true, dt_available := true, ada_available := true,
    pipeline := missingPipeline, vectorizer := detVectorizer, svm := detClassifier,
    decision_tree := detClassifier, adaboost := detClassifier }

/-- Registry whose only artifact is a pipeline that raises on every call. -/
def mRaise : Models :=
  { pipeline_available := true, vectorizer_available := false,
    svm_available := false, dt_available := false, ada_available := false,
    pipeline := raisingPipeline, vectorizer := missingVectorizer,
    svm := missingClassifier, decision_tree := missingClassifier,
    adaboost := missingClassifier }

/-! ### Helper lemmas -/

@[simp]
theorem exceptBind_ok {α β : Type} (a : α) (f : α → Except Err β) :
    (Except.ok a >>= f : Except Err β) = f a := rfl

@[simp]
theorem exceptBind_error {α β : Type} (e : Err) (f : α → Except Err β) :
    (Except.error e >>= f : Except Err β) = Except.error e := rfl

/-- Unfolding of `make_prediction_with_msgs` on a present registry. -/
theorem make_prediction_with_msgs_some (text : Text) (choice : String) (m : Models) :
    make_prediction_with_msgs text choice (some m) =
      match dispatchBody text choice m >>= finishStep with
      | .ok r => (r, [])
      | .error e => ((none, none), errorMsgs e choice m) := rfl

/-- Unfolding of the dispatch chain at the literal choice `"pipeline"`. -/
theorem dispatchBody_pipeline (text : Text) (m : Models) :
    dispatchBody text "pipeline" m =
      if m.pipeline_available then pipelinePath m text else pure (none, none) := by
  cases h : m.pipeline_available <;> simp [dispatchBody, h]

/-- Unfolding of the dispatch chain at the literal choice `"svm"`. -/
theorem dispatchBody_svm (text : Text) (m : Models) :
    dispatchBody text "svm" m =
      if m.pipeline_available then pipelinePath m text
      else if m.vectorizer_available && m.svm_available then vecClfPath m m.svm text
      else pure (none, none) := rfl

/-- Unfolding of the dispatch chain at the literal choice `"decision_tree"`. -/
theorem dispatchBody_dt (text : Text) (m : Models) :
    dispatchBody text "decision_tree" m =
      if m.vectorizer_available && m.dt_available then vecClfPath m m.decision_tree text
      else pure (none, none) := rfl

/-- Unfolding of the dispatch chain at the literal choice `"adaboost"`. -/
theorem dispatchBody_ada (text : Text) (m : Models) :
    dispatchBody text "adaboost" m =
      if m.vectorizer_available && m.ada_available then vecClfPath m m.adaboost text
      else pure (none, none) := rfl

/-- The dispatch chain on a choice that matches none of the four keys. -/
theorem dispatchBody_other (text : Text) (m : Models) (choice : String)
    (h1 : choice ≠ "pipeline") (h2 : choice ≠ "svm")
    (h3 : choice ≠ "decision_tree") (h4 : choice ≠ "adaboost") :
    dispatchBody text choice m = pure (none, none) := by
  simp [dispatchBody, h1, h2, h3, h4]

/-- The resolution-table predicate on a choice matching none of the keys. -/
theorem usable_other (m : Models) (choice : String)
    (h1 : choice ≠ "pipeline") (h2 : choice ≠ "svm")
    (h3 : choice ≠ "decision_tree") (h4 : choice ≠ "adaboost") :
    usable choice m = false := by
  simp [usable, h1, h2, h3, h4]

/-! ### Claim theorems -/

/-- C1: for every combination of the five availability flags, `load_models`
returns a registry exactly when the readiness disjunction of lines 92-95
holds — the pipeline is loaded, or the vectorizer is loaded together with at
least one of SVM, decision tree, AdaBoost; otherwise it reports failure and
yields `none`. -/
theorem load_ready_iff (p v s d a : Bool) (hp : PipelineModel)
    (hv : VectorizerModel) (hs hd ha : ClassifierModel) :
    (load_models (outcomeOf p hp) (outcomeOf v hv) (outcomeOf s hs)
        (outcomeOf d hd) (outcomeOf a ha)).isSome =
      (p || (v && (s || d || a))) ∧
    (p || (v && (s || d || a))) = is_ready p v s d a := by
  refine ⟨?_, rfl⟩
  cases p <;> cases v <;> cases s <;> cases d <;> cases a <;> rfl

/-- C5: a missing file for one artifact marks only that artifact absent —
each availability flag of a returned registry equals the load flag of that
artifact alone, for every combination of the other flags — while any unexpected
(non-missing-file) load error makes the whole `load_models` call yield
`none`. -/
theorem load_fault_isolation :
    (∀ (p v s d a : Bool) (hp : PipelineModel) (hv : VectorizerModel)
        (hs hd ha : ClassifierModel) (m : Models),
        load_models (outcomeOf p hp) (outcomeOf v hv) (outcomeOf s hs)
          (outcomeOf d hd) (outcomeOf a ha) = some m →
        m.pipeline_available = p ∧ m.vectorizer_available = v ∧
        m.svm_available = s ∧ m.dt_available = d ∧ m.ada_available = a) ∧
    (∀ (o1 : LoadOutcome PipelineModel) (o2 : LoadOutcome VectorizerModel)
        (o3 o4 o5 : LoadOutcome ClassifierModel),
        (isOtherError o1 || isOtherError o2 || isOtherError o3 ||
          isOtherError o4 || isOtherError o5) = true →
        load_models o1 o2 o3 o4 o5 = none) := by
  constructor
  · intro p v s d a hp hv hs hd ha m h
    cases p <;> cases v <;> cases s <;> cases d <;> cases a <;>
      first
        | exact Option.noConfusion h
        | (injection h with h; subst h; exact ⟨rfl, rfl, rfl, rfl, rfl⟩)
  · intro o1 o2 o3 o4 o5 h
    cases o1 <;> cases o2 <;> cases o3 <;> cases o4 <;> cases o5 <;>
      first
        | rfl
        | exact Bool.noConfusion h

/-- Witness for C5: with only the vectorizer and decision-tree files present,
the registry records exactly those two artifacts; a corrupt pipeline file
(unexpected error) fails the whole load. -/
theorem load_fault_isolation_witness :
    (mVecDt.pipeline_available = false ∧ mVecDt.vectorizer_available = true ∧
      mVecDt.svm_available = false ∧ mVecDt.dt_available = true ∧
      mVecDt.ada_available = false) ∧
    load_models (.otherError "corrupt pickle") (.ok detVectorizer)
      (.ok detClassifier) (.ok detClassifier) (.ok detClassifier) = none :=
  ⟨load_fault_isolation.1 false true false true false missingPipeline
      detVectorizer missingClassifier detClassifier missingClassifier mVecDt rfl,
    load_fault_isolation.2 (.otherError "corrupt pickle") (.ok detVectorizer)
      (.ok detClassifier) (.ok detClassifier) (.ok detClassifier) rfl⟩

/-- C4: `get_available_models` offers exactly the usable choices — `svm` when
the pipeline is loaded or the vectorizer and SVM are both loaded,
`decision_tree` when the vectorizer and decision tree are both loaded,
`adaboost` when the vectorizer and AdaBoost are both loaded — each at most
once, in the fixed order svm, decision_tree, adaboost (and nothing when no
registry is loaded).  With only the vectorizer and decision tree loaded the
list is exactly the decision-tree singleton. -/
theorem available_models_exact :
    (∀ m : Models,
        (get_available_models (some m)).map Prod.fst =
          (if m.pipeline_available || (m.vectorizer_available && m.svm_available)
            then ["svm"] else []) ++
          (if m.vectorizer_available && m.dt_available
            then ["decision_tree"] else []) ++
          (if m.vectorizer_available && m.ada_available
            then ["adaboost"] else [])) ∧
    get_available_models none = [] ∧
    (get_available_models (some mVecDt)).map Prod.fst = ["decision_tree"] := by
  refine ⟨?_, rfl, rfl⟩
  intro m
  rcases m with ⟨p, v, s, d, a, _, _, _, _, _⟩
  cases p <;> cases v <;> cases s <;> cases d <;> cases a <;> rfl

/-- C2: whenever the pipeline is loaded, an `"svm"` request is serviced by the
pipeline path on the raw text — it dispatches identically to a `"pipeline"`
request and never touches the vectorizer or the SVM classifier, whatever
their state; the vectorizer+SVM path services an `"svm"` request exactly when
the pipeline is absent and both of those artifacts are loaded, and with
neither configuration the request yields the empty result. -/
theorem svm_request_prefers_pipeline (m : Models) (text : Text) :
    (m.pipeline_available = true →
      dispatchBody text "svm" m = pipelinePath m text ∧
      make_prediction text "svm" (some m) = make_prediction text "pipeline" (some m)) ∧
    (m.pipeline_available = false →
      (m.vectorizer_available && m.svm_available) = true →
      dispatchBody text "svm" m = vecClfPath m m.svm text) ∧
    (m.pipeline_available = false →
      (m.vectorizer_available && m.svm_available) = false →
      make_prediction text "svm" (some m) = (none, none)) := by
  refine ⟨fun hp => ⟨?_, ?_⟩, fun hp hvs => ?_, fun hp hvs => ?_⟩
  · rw [dispatchBody_svm, if_pos hp]
  · unfold make_prediction
    rw [make_prediction_with_msgs_some, make_prediction_with_msgs_some,
      dispatchBody_svm, dispatchBody_pipeline, if_pos hp, if_pos hp]
    cases h : pipelinePath m text >>= finishStep <;> simp [h]
  · rw [dispatchBody_svm, if_neg (by simp [hp]), if_pos hvs]
  · unfold make_prediction
    rw [make_prediction_with_msgs_some, dispatchBody_svm,
      if_neg (by simp [hp]), if_neg (by simp [hvs])]
    rfl

/-- Witness for C2: on a registry where the pipeline, vectorizer and SVM are
all loaded, an `"svm"` request returns the answer of the pipeline, not that
of the SVM classifier; and with only vectorizer+decision-tree loaded an `"svm"`
request is empty. -/
theorem svm_request_prefers_pipeline_witness :
    dispatchBody "hi" "svm" mAll = pipelinePath mAll "hi" ∧
    make_prediction "hi" "svm" (some mAll) = make_prediction "hi" "pipeline" (some mAll) ∧
    dispatchBody "hi" "svm" mNoPipe = vecClfPath mNoPipe mNoPipe.svm "hi" ∧
    make_prediction "hi" "svm" (some mVecDt) = (none, none) :=
  ⟨((svm_request_prefers_pipeline mAll "hi").1 rfl).1,
    ((svm_request_prefers_pipeline mAll "hi").1 rfl).2,
    (svm_request_prefers_pipeline mNoPipe "hi").2.1 rfl rfl,
    (svm_request_prefers_pipeline mVecDt "hi").2.2 rfl rfl⟩

/-- C10: `make_prediction` returns either a label together with a probability
vector or neither — never one without the other; any returned label is Human
or AI; and with no registry loaded the result is always empty. -/
theorem make_prediction_shape :
    (∀ (text : Text) (choice : String) (models : Option Models),
        make_prediction text choice models = (none, none) ∨
        ∃ l pr, make_prediction text choice models = (some l, some pr) ∧
          (l = Label.Human ∨ l = Label.AI)) ∧
    (∀ (text : Text) (choice : String),
        make_prediction text choice none = (none, none)) := by
  constructor
  · intro text choice models
    match models with
    | none => exact Or.inl rfl
    | some m =>
      unfold make_prediction
      rw [make_prediction_with_msgs_some]
      cases hd : dispatchBody text choice m with
      | error e => exact Or.inl (by simp)
      | ok x =>
        rcases x with ⟨op, opr⟩
        match op, opr with
        | none, none => exact Or.inl (by simp [finishStep, pure, Except.pure])
        | none, some pr => exact Or.inl (by simp [finishStep, pure, Except.pure])
        | some p, none => exact Or.inl (by simp [finishStep, pure, Except.pure])
        | some p, some pr =>
          cases hc : class_names_at p with
          | error e => exact Or.inl (by simp [finishStep, hc, Except.map])
          | ok lab =>
            refine Or.inr ⟨lab, pr, by simp [finishStep, hc, Except.map], ?_⟩
            cases lab
            · exact Or.inl rfl
            · exact Or.inr rfl
  · intro text choice
    rfl

/-- C3 counterexample: the two failure modes are not distinguishable in the
returned result.  On the registry with only vectorizer+decision-tree loaded an
`"svm"` request has no usable path, and on the registry whose pipeline raises
the underlying call fails — `make_prediction` returns the identical
`(none, none)` in both cases, with no structured error value. -/
theorem dispatch_error_modes_counterexample :
    make_prediction "hi" "svm" (some mVecDt) = (none, none) ∧
    make_prediction "hi" "svm" (some mRaise) = (none, none) ∧
    make_prediction "hi" "svm" (some mVecDt) = make_prediction "hi" "svm" (some mRaise) :=
  ⟨rfl, rfl, rfl⟩

/-- C3 amended: when the resolution table yields no usable path the function
returns `(none, none)` and displays nothing; when the underlying model call
raises it also returns `(none, none)` but displays error messages wrapping
the original cause.  The two failure modes are distinguishable only in the
displayed messages, never in the returned result. -/
theorem dispatch_error_modes :
    (∀ (text : Text) (choice : String) (m : Models),
        usable choice m = false →
        make_prediction_with_msgs text choice (some m) = ((none, none), [])) ∧
    (∀ (text : Text) (choice : String) (m : Models) (e : Err),
        dispatchBody text choice m = .error e →
        make_prediction_with_msgs text choice (some m) =
          ((none, none), errorMsgs e choice m)) := by
  constructor
  · intro text choice m h
    have hbody : dispatchBody text choice m = pure (none, none) := by
      by_cases h1 : choice = "pipeline"
      · subst h1
        rw [show usable "pipeline" m = m.pipeline_available from rfl] at h
        rw [dispatchBody_pipeline, if_neg (by simp [h])]
      · by_cases h2 : choice = "svm"
        · subst h2
          rw [show usable "svm" m =
            (m.pipeline_available || (m.vectorizer_available && m.svm_available)) from rfl] at h
          rcases Bool.or_eq_false_iff.mp h with ⟨hp, hvs⟩
          rw [dispatchBody_svm, if_neg (by simp [hp]), if_neg (by simp [hvs])]
        · by_cases h3 : choice = "decision_tree"
          · subst h3
            rw [show usable "decision_tree" m =
              (m.vectorizer_available && m.dt_available) from rfl] at h
            rw [dispatchBody_dt, if_neg (by simp [h])]
          · by_cases h4 : choice = "adaboost"
            · subst h4
              rw [show usable "adaboost" m =
                (m.vectorizer_available && m.ada_available) from rfl] at h
              rw [dispatchBody_ada, if_neg (by simp [h])]
            · exact dispatchBody_other text m choice h1 h2 h3 h4
    rw [make_prediction_with_msgs_some, hbody]
    rfl
  · intro text choice m e h
    rw [make_prediction_with_msgs_some, h]
    rfl

/-- Witness for C3 amended: the unusable `"svm"` request on the
vectorizer+decision-tree registry is silently empty, while the raising
pipeline yields the empty result plus the wrapped cause `"boom"`. -/
theorem dispatch_error_modes_witness :
    make_prediction_with_msgs "hi" "svm" (some mVecDt) = ((none, none), []) ∧
    make_prediction_with_msgs "hi" "svm" (some mRaise) =
      ((none, none), errorMsgs "boom" "svm" mRaise) :=
  ⟨dispatch_error_modes.1 "hi" "svm" mVecDt rfl,
    dispatch_error_modes.2 "hi" "svm" mRaise "boom" rfl⟩

/-- C7: class index 0 maps to Human and 1 to AI; on a successful prediction
with a two-entry probability vector, the result row reports index 0 as the
Human probability, index 1 as the AI probability, and as confidence the
maximum of the two. -/
theorem output_normalization :
    (class_names_at 0 = .ok Label.Human ∧ class_names_at 1 = .ok Label.AI) ∧
    (∀ (choice : String) (models : Option Models) (text : Text) (l : Label)
        (p0 p1 : ℚ),
        make_prediction text choice models = (some l, some [p0, p1]) →
        stripTruthy text = true →
        processOne choice models text =
          .ok (some { Text := truncatePreview text, Full_Text := text,
                      Prediction := l, Confidence := max p0 p1,
                      Human_Prob := p0, AI_Prob := p1 })) := by
  refine ⟨⟨rfl, rfl⟩, ?_⟩
  intro choice models text l p0 p1 hpred hstrip
  unfold processOne
  rw [if_pos (by simp [hstrip]), hpred]
  simp [pyMax, pyGet]

/-- Witness for C7: a concrete successful prediction on the all-artifacts
registry yields the row with confidence `max (1/5) (4/5)` and the two
probabilities in Human, AI order. -/
theorem output_normalization_witness :
    processOne "svm" (some mAll) "hi" =
      .ok (some { Text := truncatePreview "hi", Full_Text := "hi",
                  Prediction := Label.AI, Confidence := max ((1 : ℚ)/5) ((4 : ℚ)/5),
                  Human_Prob := (1 : ℚ)/5, AI_Prob := (4 : ℚ)/5 }) :=
  output_normalization.2 "svm" (some mAll) "hi" Label.AI ((1 : ℚ)/5) ((4 : ℚ)/5) rfl rfl

/-- C8: the batch page reports the no-text error exactly when the parsed text
sequence is empty, and in that case it stops without processing (no
`batch_rows` run, hence no prediction call). -/
theorem empty_batch_guard (texts : List Text) (choice : String)
    (models : Option Models) :
    batch_page texts choice models = .noTextFound ↔ texts = [] := by
  cases texts <;> simp [batch_page]

/-- Unfolding of the batch loop on a cons cell. -/
theorem batch_rows_cons (choice : String) (models : Option Models)
    (t : Text) (ts : List Text) :
    batch_rows choice models (t :: ts) =
      (processOne choice models t >>= fun r =>
        batch_rows choice models ts >>= fun rest =>
        match r with
        | some row => pure (row :: rest)
        | none => pure rest) := rfl

/-- A failed prediction produces no row and raises nothing. -/
theorem processOne_of_failed (choice : String) (models : Option Models)
    (t : Text) (h : make_prediction t choice models = (none, none)) :
    processOne choice models t = .ok none := by
  unfold processOne
  cases hst : stripTruthy t
  · rw [if_neg (by simp [hst])]
    rfl
  · rw [if_pos (by simp [hst]), h]
    rfl

/-- C6: a successful batch run over N texts yields at most N rows, with
strictly fewer exactly when some text produced no row; the rows of the two
halves of a split input concatenate in order (so successful rows keep the
original input order); and a text whose prediction fails is skipped without
aborting the processing of the remaining texts. -/
theorem batch_results (choice : String) (models : Option Models) :
    (∀ (texts : List Text) (rows : List Row),
        batch_rows choice models texts = .ok rows →
        rows.length ≤ texts.length ∧
        (rows.length < texts.length ↔
          ∃ t ∈ texts, processOne choice models t = .ok none)) ∧
    (∀ (l1 l2 : List Text) (r1 r2 : List Row),
        batch_rows choice models l1 = .ok r1 →
        batch_rows choice models l2 = .ok r2 →
        batch_rows choice models (l1 ++ l2) = .ok (r1 ++ r2)) ∧
    (∀ (t : Text) (ts : List Text),
        make_prediction t choice models = (none, none) →
        batch_rows choice models (t :: ts) = batch_rows choice models ts) := by
  refine ⟨?_, ?_, ?_⟩
  · intro texts
    induction texts with
    | nil =>
      intro rows h
      injection h with h
      subst h
      simp
    | cons t ts ih =>
      intro rows h
      rw [batch_rows_cons] at h
      cases hpo : processOne choice models t with
      | error e => rw [hpo] at h; exact absurd h (by simp)
      | ok r =>
        rw [hpo, exceptBind_ok] at h
        cases hb : batch_rows choice models ts with
        | error e => rw [hb] at h; exact absurd h (by simp)
        | ok rest =>
          rw [hb, exceptBind_ok] at h
          obtain ⟨hle, hiff⟩ := ih rest hb
          cases r with
          | some row =>
            have hrows : rows = row :: rest := by
              injection h with h
              exact h.symm
            subst hrows
            refine ⟨Nat.succ_le_succ hle, ?_⟩
            simp only [List.length_cons, Nat.succ_lt_succ_iff]
            rw [hiff]
            constructor
            · rintro ⟨x, hx, hpx⟩
              exact ⟨x, List.mem_cons_of_mem _ hx, hpx⟩
            · rintro ⟨x, hx, hpx⟩
              rcases List.mem_cons.mp hx with rfl | hx2
              · rw [hpo] at hpx
                injection hpx with hpx
                exact absurd hpx (by simp)
              · exact ⟨x, hx2, hpx⟩
          | none =>
            have hrows : rows = rest := by
              injection h with h
              exact h.symm
            subst hrows
            refine ⟨Nat.le_succ_of_le hle, ?_⟩
            refine iff_of_true (Nat.lt_succ_of_le hle) ?_
            exact ⟨t, List.mem_cons_self t ts, hpo⟩
  · intro l1
    induction l1 with
    | nil =>
      intro l2 r1 r2 h1 h2
      injection h1 with h1
      subst h1
      simpa using h2
    | cons t ts ih =>
      intro l2 r1 r2 h1 h2
      rw [batch_rows_cons] at h1
      cases hpo : processOne choice models t with
      | error e => rw [hpo] at h1; exact absurd h1 (by simp)
      | ok r =>
        rw [hpo, exceptBind_ok] at h1
        cases hb : batch_rows choice models ts with
        | error e => rw [hb] at h1; exact absurd h1 (by simp)
        | ok rest =>
          rw [hb, exceptBind_ok] at h1
          rw [List.cons_append, batch_rows_cons, hpo, exceptBind_ok,
            ih l2 rest r2 hb h2, exceptBind_ok]
          cases r with
          | some row =>
            have hr1 : r1 = row :: rest := by
              injection h1 with h1
              exact h1.symm
            subst hr1
            rfl
          | none =>
            have hr1 : r1 = rest := by
              injection h1 with h1
              exact h1.symm
            subst hr1
            rfl
  · intro t ts h
    rw [batch_rows_cons, processOne_of_failed choice models t h, exceptBind_ok]
    cases hb : batch_rows choice models ts <;> rfl

/-- The row produced for the text `"hi"` on the all-artifacts registry. -/
def rowHi : Row :=
  { Text := "hi", Full_Text := "hi", Prediction := Label.AI,
    Confidence := max ((1 : ℚ)/5) ((4 : ℚ)/5),
    Human_Prob := (1 : ℚ)/5, AI_Prob := (4 : ℚ)/5 }

/-- Witness for C6: a concrete two-text batch (the second text whitespace
only) yields one row; and on the vectorizer+decision-tree registry an `"svm"`
batch skips a failing first text and continues with the rest. -/
theorem batch_results_witness :
    ([rowHi].length ≤ (["hi", " "] : List Text).length ∧
      ([rowHi].length < (["hi", " "] : List Text).length ↔
        ∃ t ∈ (["hi", " "] : List Text), processOne "svm" (some mAll) t = .ok none)) ∧
    batch_rows "svm" (some mVecDt) ("hi" :: ["yo"]) =
      batch_rows "svm" (some mVecDt) ["yo"] :=
  ⟨(batch_results "svm" (some mAll)).1 ["hi", " "] [rowHi] rfl,
    (batch_results "svm" (some mVecDt)).2.2 "hi" ["yo"] rfl⟩

/-- Projection of the agreement flag computed by the comparison page. -/
theorem compare_models_snd (text : Text) (models : Option Models) :
    (compare_models text models).2 =
      if (compare_models text models).1.isEmpty then none
      else some (decide
        (((compare_models text models).1.map (fun r => r.2.1)).toFinset.card = 1)) := rfl

/-- The Python condition `len(set(l)) == 1` says exactly that all elements of a non-empty list
are equal. -/
theorem toFinset_card_one_iff {α : Type} [DecidableEq α] (l : List α)
    (h : l ≠ []) :
    l.toFinset.card = 1 ↔ ∀ a ∈ l, ∀ b ∈ l, a = b := by
  constructor
  · intro h1 a ha b hb
    obtain ⟨x, hx⟩ := Finset.card_eq_one.mp h1
    have ha2 := List.mem_toFinset.mpr ha
    have hb2 := List.mem_toFinset.mpr hb
    rw [hx, Finset.mem_singleton] at ha2 hb2
    rw [ha2, hb2]
  · intro hall
    obtain ⟨x, xs, rfl⟩ := List.exists_cons_of_ne_nil h
    apply Finset.card_eq_one.mpr
    refine ⟨x, Finset.eq_singleton_iff_unique_mem.mpr ⟨?_, ?_⟩⟩
    · exact List.mem_toFinset.mpr (List.mem_cons_self x xs)
    · intro y hy
      exact hall y (List.mem_toFinset.mp hy) x (List.mem_cons_self x xs)

/-- C9: when the comparison produced at least one result, the page reports
full agreement exactly when all produced results carry the same label; in
particular, when every produced result is labelled AI, full agreement is
reported. -/
theorem comparison_agreement :
    (∀ (text : Text) (models : Option Models),
        (compare_models text models).1 ≠ [] →
        ((compare_models text models).2 = some true ↔
          ∀ r ∈ (compare_models text models).1,
            ∀ r2 ∈ (compare_models text models).1, r.2.1 = r2.2.1)) ∧
    (∀ (text : Text) (models : Option Models),
        (compare_models text models).1 ≠ [] →
        (∀ r ∈ (compare_models text models).1, r.2.1 = Label.AI) →
        (compare_models text models).2 = some true) := by
  have key : ∀ (text : Text) (models : Option Models),
      (compare_models text models).1 ≠ [] →
      ((compare_models text models).2 = some true ↔
        ∀ r ∈ (compare_models text models).1,
          ∀ r2 ∈ (compare_models text models).1, r.2.1 = r2.2.1) := by
    intro text models h
    rw [compare_models_snd, if_neg (by simp [List.isEmpty_iff, h])]
    rw [Option.some_inj, decide_eq_true_iff]
    rw [toFinset_card_one_iff _ (by simp [List.map_eq_nil_iff, h])]
    constructor
    · intro hall r hr r2 hr2
      exact hall _ (List.mem_map_of_mem _ hr) _ (List.mem_map_of_mem _ hr2)
    · intro hall a ha b hb
      obtain ⟨r, hr, rfl⟩ := List.mem_map.mp ha
      obtain ⟨r2, hr2, rfl⟩ := List.mem_map.mp hb
      exact hall r hr r2 hr2
  refine ⟨key, fun text models h hall => (key text models h).mpr ?_⟩
  intro r hr r2 hr2
  rw [hall r hr, hall r2 hr2]

/-- Witness for C9: on the all-artifacts registry all three produced results
are labelled AI, and the page reports full agreement. -/
theorem comparison_agreement_witness :
    (compare_models "hi" (some mAll)).2 = some true := by
  have hrs : (compare_models "hi" (some mAll)).1 =
      [("📈 SVM (Pipeline)", Label.AI, [(1 : ℚ)/5, 4/5]),
       ("🎯 Decision Tree", Label.AI, [(2 : ℚ)/5, 3/5]),
       ("🎯 AdaBoost", Label.AI, [(2 : ℚ)/5, 3/5])] := rfl
  refine comparison_agreement.2 "hi" (some mAll) (by rw [hrs]; simp) ?_
  intro r hr
  rw [hrs] at hr
  rcases List.mem_cons.mp hr with rfl | hr
  · rfl
  rcases List.mem_cons.mp hr with rfl | hr
  · rfl
  rcases List.mem_cons.mp hr with rfl | hr
  · rfl
  · exact absurd hr (List.not_mem_nil r)

end MLApp
